import Mathlib

/-!
# Verification of the pypowerwall FleetAPI translation layer

Shallow embedding of `pypowerwall/fleetapi/pypowerwall_fleetapi.py`:
the path dispatch (`poll` / `post`), the shape translators cited by the
claims (`get_api_system_status_grid_status`, the grid-status fragment of
`get_api_system_status`, `get_api_system_status_soe`, `get_vitals`,
`post_api_operation`), site selection (`change_site`), and a model of the
per-key cache/lock table described in the design (its implementation is
not part of the translator module).

Python dictionaries are embedded as association lists over a small value
type `JVal`; `dget` models `dict.get(key)` (returning Python `None`,
i.e. `JVal.null`, when the key is absent), `truthy` models Python
truthiness, and `pyEq` models Python `==` on the scalar values the
translator compares (strings, ints, bools, None; Python compares `bool`
and `int` numerically, so `0 == False` is `True`).
-/

namespace PypowerwallFleet

/-- Embedded Python/JSON values as they appear in the translator module:
`null` is Python `None`; nested dicts and lists appear in translator
output documents. -/
inductive JVal where
  | null : JVal
  | jbool : Bool → JVal
  | jint : Int → JVal
  | jnum : ℚ → JVal
  | jstr : String → JVal
  | jarr : List JVal → JVal
  | jobj : List (String × JVal) → JVal

/-- A Python dictionary with the scalar-or-nested values above. -/
abbrev Dict := List (String × JVal)

/-- `d.get(k)`: first binding of `k`, Python `None` (`JVal.null`) when
absent. As in Python, a key bound to `None` and an absent key are
indistinguishable through `get`. -/
def dget : Dict → String → JVal
  | [], _ => .null
  | (k, v) :: rest, key => if k = key then v else dget rest key

/-- `k in d` (key membership, distinct from `d.get(k)` being None). -/
def hasKey : Dict → String → Bool
  | [], _ => false
  | (k, _) :: rest, key => if k = key then true else hasKey rest key

/-- Python truthiness of the embedded values (`bool(v)`); a list or dict
is truthy when non-empty. -/
def truthy : JVal → Bool
  | .null => false
  | .jbool b => b
  | .jint n => n ≠ 0
  | .jnum q => q ≠ 0
  | .jstr s => s ≠ ""
  | .jarr [] => false
  | .jarr (_ :: _) => true
  | .jobj [] => false
  | .jobj (_ :: _) => true

/-- Python `==` restricted to the scalar comparisons the translator
performs. `bool` and `int` compare numerically (`False == 0`); values of
unrelated scalar types are unequal; the translator never compares
composite values, for which we return `false`. -/
def pyEq : JVal → JVal → Bool
  | .null, .null => true
  | .jbool a, .jbool b => a = b
  | .jbool a, .jint n => (if a then (1 : Int) else 0) = n
  | .jint n, .jbool a => n = (if a then (1 : Int) else 0)
  | .jint m, .jint n => m = n
  | .jnum p, .jnum q => p = q
  | .jint m, .jnum q => (m : ℚ) = q
  | .jnum q, .jint m => q = (m : ℚ)
  | .jstr s, .jstr t => s = t
  | _, _ => false

/-- Python `str(x)` for the values interpolated into the vitals device
key f-string (`str(None)` is `"None"`). -/
def pyStrOfOpt : Option String → String
  | Option.none => "None"
  | some s => s

/-- The exceptions the embedded module can raise. -/
inductive PwErr where
  | teslaNotConnected
  | invalidPayload
  | attributeError
deriving DecidableEq

/-- Python `din.split("--")` on the character list of `din`: splits on
non-overlapping occurrences of the fixed two-character separator `--`,
scanning left to right, keeping empty pieces (so `"".split("--")` is
`[""]` and `"a----b".split("--")` is `["a", "", "b"]`). -/
def splitDashDash : List Char → List (List Char)
  | [] => [[]]
  | [c] => [[c]]
  | c1 :: c2 :: rest =>
    if c1 = '-' ∧ c2 = '-' then
      [] :: splitDashDash rest
    else
      match splitDashDash (c2 :: rest) with
      | [] => [[c1]]
      | p :: ps => (c1 :: p) :: ps

example : splitDashDash "1232100-00-E--TG12345678904G".data =
    ["1232100-00-E".data, "TG12345678904G".data] := by decide

example : splitDashDash "no-separator-here".data = ["no-separator-here".data] := by
  decide

example : splitDashDash "a----b".data = ["a".data, "".data, "b".data] := by decide

/-- Python `x or y` (used as `battery_level() or 0`): `y` when `x` is
falsy, else `x`. -/
def pyOr (a b : JVal) : JVal := if truthy a then a else b

/-- Python `x is None` on the embedded values. -/
def isNull : JVal → Bool
  | .null => true
  | _ => false

/-- `get_api_system_status_soe`: `percentage` is
`self.fleet.battery_level() or 0`; `battery_level` is the upstream
value (`JVal.null` when unavailable). Always returns a document. -/
def get_api_system_status_soe (battery_level : JVal) : Option Dict :=
  let percentage_charged := pyOr battery_level (.jint 0)
  some [("percentage", percentage_charged)]

/-- `get_api_system_status_grid_status`: `None` when the live-status
fetch produced `None`; otherwise grid-connected exactly when the
document's `grid_status` field equals `"Active"` (the `island_status`
field is not consulted on this path). -/
def get_api_system_status_grid_status (power : Option Dict) : Option Dict :=
  match power with
  | Option.none => Option.none
  | some power =>
    let grid_status : String :=
      if pyEq (dget power "grid_status") (.jstr "Active") then "SystemGridConnected"
      else "SystemIslandedActive"
    some [("grid_status", .jstr grid_status),
          ("grid_services_active", dget power "grid_services_active")]

/-- The `system_island_state` computation inside `get_api_system_status`
(source lines 614-620): `island_status == "on_grid"` maps to
grid-connected; otherwise islanded-active, overridden to grid-connected
when `grid_status == "Active"`. (The rest of `get_api_system_status`
overlays live fields on a stub defined outside this module.) -/
def get_api_system_status_island_state (power : Dict) : String :=
  if pyEq (dget power "island_status") (.jstr "on_grid") then
    "SystemGridConnected"
  else
    if pyEq (dget power "grid_status") (.jstr "Active") then "SystemGridConnected"
    else "SystemIslandedActive"

/-- Source lines 501-508 of `get_vitals`: split the device identifier on
`"--"`; exactly two parts give `(part_number, serial_number)`, any other
number of parts gives `(None, None)`. -/
def vitalsPartSerial (din : String) : Option String × Option String :=
  match splitDashDash din.data with
  | [p, q] => (some (String.mk p), some (String.mk q))
  | _ => (Option.none, Option.none)

/-- Source lines 512-522 of `get_vitals`: alert string from
`island_status`, with the coarser `grid_status == "Active"` check as
fallback when `island_status` matches none of the three known values. -/
def vitalsAlert (power : Dict) : String :=
  if pyEq (dget power "island_status") (.jstr "on_grid") then
    "SystemConnectedToGrid"
  else if pyEq (dget power "island_status") (.jstr "off_grid_intentional") then
    "ScheduledIslandContactorOpen"
  else if pyEq (dget power "island_status") (.jstr "off_grid") then
    "UnscheduledIslandContactorOpen"
  else if pyEq (dget power "grid_status") (.jstr "Active") then
    "SystemConnectedToGrid"
  else ""

/-- Values interpolated into the synthesized device record. -/
def optStrJVal : Option String → JVal
  | Option.none => .null
  | some s => .jstr s

/-- `get_vitals`: `None` when either upstream document is `None`;
otherwise evaluates `config.get("id").split("--")`, which raises
`AttributeError` when the site-info document has no string under `"id"`
(`None` — or any non-string — has no `.split`). On a string identifier
it synthesizes the single device record keyed by the f-string
`STSTSM--{part_number}--{serial_number}` (Python renders a `None` part
as the string `"None"`). `now` models `int(time.time())`. -/
def get_vitals (now : Int) (config power : Option Dict) :
    Except PwErr (Option JVal) :=
  match config, power with
  | some config, some power =>
    match dget config "id" with
    | .jstr din =>
      let pn := (vitalsPartSerial din).1
      let sn := (vitalsPartSerial din).2
      let version := dget config "version"
      let alert := vitalsAlert power
      .ok (some (.jobj [
        ("STSTSM--" ++ pyStrOfOpt pn ++ "--" ++ pyStrOfOpt sn, .jobj [
          ("partNumber", optStrJVal pn),
          ("serialNumber", optStrJVal sn),
          ("manufacturer", .jstr "Simulated"),
          ("firmwareVersion", version),
          ("lastCommunicationTime", .jint now),
          ("teslaEnergyEcuAttributes", .jobj [("ecuType", .jint 207)]),
          ("STSTSM-Location", .jstr "Simulated"),
          ("alerts", .jarr [.jstr alert])])]))
    | _ => .error .attributeError
  | _, _ => .ok Option.none

/-- One upstream mutating call, in the order issued. -/
inductive UpCall where
  | setBatteryReserve : JVal → UpCall
  | setOperatingMode : JVal → UpCall

/-- `post_api_operation`: raises `PyPowerwallFleetAPIInvalidPayload` when
both recognized payload fields are falsy (`not payload.get(...)`), before
any upstream call. A reserve value `== False` (Python also counts `0`)
is coerced to integer `0` before the `set_battery_reserve` call, while
the response document echoes the original payload value. Each field
whose `get` is not `None` triggers exactly one upstream call. `setRes` /
`setMode` abstract the upstream call results; the first component of the
result is the trace of upstream calls issued; `din` is only logged. -/
def post_api_operation (setRes setMode : JVal → JVal) (payload : Dict)
    (din : JVal) : List UpCall × Except PwErr Dict :=
  if !truthy (dget payload "backup_reserve_percent") &&
      !truthy (dget payload "real_mode") then
    ([], .error .invalidPayload)
  else
    let part1 :=
      if !isNull (dget payload "backup_reserve_percent") then
        let brp0 := dget payload "backup_reserve_percent"
        let brp := if pyEq brp0 (.jbool false) then JVal.jint 0 else brp0
        let op_level := setRes brp
        ([UpCall.setBatteryReserve brp],
         [("set_backup_reserve_percent", JVal.jobj [
            ("backup_reserve_percent", brp0),
            ("result", op_level)])])
      else ([], [])
    let part2 :=
      if !isNull (dget payload "real_mode") then
        let rm := dget payload "real_mode"
        let op_mode := setMode rm
        ([UpCall.setOperatingMode rm],
         [("set_operation", JVal.jobj [("real_mode", rm), ("result", op_mode)])])
      else ([], [])
    (part1.1 ++ part2.1, .ok (part1.2 ++ part2.2))

/-- The keys of `init_poll_api_map` (the read dispatch table). -/
def poll_api_map : List String := [
  "/api/devices/vitals", "/api/meters/aggregates", "/api/operation",
  "/api/site_info", "/api/site_info/site_name", "/api/status",
  "/api/system_status", "/api/system_status/grid_status",
  "/api/system_status/soe", "/vitals",
  "/api/login/Basic", "/api/logout",
  "/api/auth/toggle/supported", "/api/customer", "/api/customer/registration",
  "/api/installer", "/api/meters", "/api/meters/readings", "/api/meters/site",
  "/api/meters/solar", "/api/networks", "/api/powerwalls",
  "/api/site_info/grid_codes", "/api/sitemaster", "/api/solar_powerwall",
  "/api/solars", "/api/solars/brands",
  "/api/synchrometer/ct_voltage_references", "/api/system/update/status",
  "/api/system_status/grid_faults", "/api/troubleshooting/problems"]

/-- The keys of `init_post_api_map` (the write dispatch table). -/
def post_api_map : List String := ["/api/operation"]

/-- `poll`: raises `PyPowerwallFleetAPITeslaNotConnected` when the
`tesla` attribute is `None`, before the dispatch-table lookup. Otherwise
a registered path runs its handler (the handler bodies are embedded
separately; `handlers` abstracts the bound-method table, and a handler
may itself raise) and an unregistered path returns the structured
`{"ERROR": "Unknown API: <path>"}` document. -/
def poll (tesla : Option Unit) (handlers : String → Except PwErr (Option JVal))
    (api : String) : Except PwErr (Option JVal) :=
  match tesla with
  | Option.none => .error .teslaNotConnected
  | some _ =>
    if api ∈ poll_api_map then handlers api
    else .ok (some (.jobj [("ERROR", .jstr ("Unknown API: " ++ api))]))

/-- `post`: same `tesla is None` check before lookup; a registered path
runs its handler and, when the result is truthy, invalidates the
associated read cache (the Bool in the result records that); an
unregistered path returns the structured error document and touches no
cache. -/
def post (tesla : Option Unit) (handlers : String → Except PwErr JVal)
    (api : String) : Except PwErr (JVal × Bool) :=
  match tesla with
  | Option.none => .error .teslaNotConnected
  | some _ =>
    if api ∈ post_api_map then
      match handlers api with
      | .error e => .error e
      | .ok res => .ok (res, truthy res)
    else .ok (.jobj [("ERROR", .jstr ("Unknown API: " ++ api))], false)

/-- A cloud site as consulted by `change_site` / `connect`. -/
structure TSite where
  energy_site_id : Int
  site_name : String
deriving DecidableEq

/-- The site-selection state mutated by `change_site`: the `siteid`,
`siteindex` and `site` attributes of the instance. -/
structure SiteSel where
  siteid : Option Int
  siteindex : Nat
  site : Option TSite
deriving DecidableEq

/-- The index scan of `change_site`: first site (with its index) whose
`energy_site_id` equals the requested identifier. -/
def findSite : List TSite → Int → Nat → Option (Nat × TSite)
  | [], _, _ => Option.none
  | s :: rest, sid, idx =>
    if s.energy_site_id = sid then some (idx, s) else findSite rest sid (idx + 1)

/-- `change_site`: `arg` is the parsed `int(siteid)` (`none` models an
argument `int()` rejects); `sites` is the `getsites()` result (`none`
when the fetch failed or the instance has no session). On a match it
returns `true` and the new selection; on every failure path it returns
`false` with the selection unchanged (no other instance state is
touched). -/
def change_site (st : SiteSel) (sites : Option (List TSite))
    (arg : Option Int) : Bool × SiteSel :=
  match arg with
  | Option.none => (false, st)
  | some sid =>
    match sites with
    | Option.none => (false, st)
    | some l =>
      if l.length = 0 then (false, st)
      else
        match findSite l sid 0 with
        | some (idx, site) =>
          (true, { siteid := some sid, siteindex := idx, site := some site })
        | Option.none => (false, st)

/-- Modelled from the spec: the Response Cache & Lock Table
(`get_or_fetch(key, fetch_fn, force)`) whose implementation lives outside
this module (the translator only declares `self.apilock = {}` and
`self.pwcachetime = {}`). Per-key state for one resource key during one
TTL window (no entry expires, no force-refresh, no invalidation):
whether a valid cache entry exists, whether the key's lock is held, how
many times `fetch_fn` has run, and how many of the N concurrent callers
are before the cache check (`nStart`), holding the lock mid-fetch
(`nLock`), or finished (`nDone`). -/
structure SFState where
  cacheFresh : Bool
  lockHeld : Bool
  fetches : Nat
  nStart : Nat
  nLock : Nat
  nDone : Nat
deriving DecidableEq

/-- Modelled from the spec: one atomic step of a caller in
`get_or_fetch` with `force = false`. A caller observing a valid entry
returns it (`cacheHit`); with no valid entry it atomically tries the
key's lock, either acquiring it (`acquire`) or, finding it held by a
concurrent caller, completing without an upstream call (`lockBusy` —
returning the last known value; a caller that instead waits simply takes
no step until the fetch completes). The lock holder performs the one
`fetch_fn` call, stores the result and releases (`complete`). -/
inductive SFStep : SFState → SFState → Prop where
  | cacheHit (s : SFState) (h : s.nStart ≠ 0) (hc : s.cacheFresh = true) :
      SFStep s { s with nStart := s.nStart - 1, nDone := s.nDone + 1 }
  | acquire (s : SFState) (h : s.nStart ≠ 0) (hc : s.cacheFresh = false)
      (hl : s.lockHeld = false) :
      SFStep s { s with nStart := s.nStart - 1, nLock := s.nLock + 1,
                        lockHeld := true }
  | lockBusy (s : SFState) (h : s.nStart ≠ 0) (hc : s.cacheFresh = false)
      (hl : s.lockHeld = true) :
      SFStep s { s with nStart := s.nStart - 1, nDone := s.nDone + 1 }
  | complete (s : SFState) (h : s.nLock ≠ 0) :
      SFStep s { s with nLock := s.nLock - 1, nDone := s.nDone + 1,
                        fetches := s.fetches + 1, cacheFresh := true,
                        lockHeld := false }

/-- Reachability under interleaved caller steps. -/
def SFReach : SFState → SFState → Prop := Relation.ReflTransGen SFStep

/-- N concurrent callers about to enter `get_or_fetch` for the key; the
window may begin with or without a valid cache entry, the lock free, no
fetch performed yet. -/
def SFInit (n : Nat) (fresh : Bool) : SFState :=
  { cacheFresh := fresh, lockHeld := false, fetches := 0,
    nStart := n, nLock := 0, nDone := 0 }

/-- Inductive invariant of the single-flight machine. -/
def SFInv (s : SFState) : Prop :=
  s.fetches ≤ 1 ∧ (s.fetches = 1 → s.cacheFresh = true) ∧
    (s.cacheFresh = true → s.nLock = 0) ∧ s.nLock ≤ 1 ∧
    (s.lockHeld = true ↔ s.nLock = 1)

lemma sfInv_init (n : Nat) (fresh : Bool) : SFInv (SFInit n fresh) := by
  refine ⟨Nat.zero_le 1, ?_, ?_, Nat.zero_le 1, ?_⟩ <;> simp [SFInit]

lemma sfInv_step {s t : SFState} (hs : SFInv s) (h : SFStep s t) : SFInv t := by
  obtain ⟨h1, h2, h3, h4, h5⟩ := hs
  cases h with
  | cacheHit hst hc => exact ⟨h1, h2, h3, h4, h5⟩
  | lockBusy hst hc hl => exact ⟨h1, h2, h3, h4, h5⟩
  | acquire hst hc hl =>
    have hne : s.nLock ≠ 1 := by
      intro he
      rw [h5.mpr he] at hl
      exact absurd hl (by decide)
    refine ⟨h1, ?_, ?_, ?_, ?_⟩
    · show s.fetches = 1 → s.cacheFresh = true
      exact h2
    · show s.cacheFresh = true → s.nLock + 1 = 0
      intro hcf
      rw [hcf] at hc
      exact absurd hc (by decide)
    · show s.nLock + 1 ≤ 1
      omega
    · show true = true ↔ s.nLock + 1 = 1
      constructor
      · intro _
        omega
      · intro _
        rfl
  | complete hst =>
    have hcf : s.cacheFresh = false := by
      cases hcv : s.cacheFresh with
      | false => rfl
      | true => exact absurd (h3 hcv) hst
    have hf : s.fetches = 0 := by
      rcases Nat.lt_or_ge s.fetches 1 with hlt | hge
      · omega
      · have he : s.fetches = 1 := by omega
        rw [h2 he] at hcf
        exact absurd hcf (by decide)
    refine ⟨?_, ?_, ?_, ?_, ?_⟩
    · show s.fetches + 1 ≤ 1
      omega
    · show s.fetches + 1 = 1 → true = true
      intro _
      rfl
    · show true = true → s.nLock - 1 = 0
      intro _
      omega
    · show s.nLock - 1 ≤ 1
      omega
    · show false = true ↔ s.nLock - 1 = 1
      constructor
      · intro hx
        exact absurd hx (by decide)
      · intro hx
        exact absurd hx (by omega)

lemma sfInv_reach {s t : SFState} (hs : SFInv s) (h : SFReach s t) : SFInv t := by
  induction h with
  | refl => exact hs
  | tail _ hstep ih => exact sfInv_step ih hstep

lemma dget_eq_null_of_not_hasKey : (d : Dict) → (k : String) →
    hasKey d k = false → dget d k = .null
  | [], _, _ => rfl
  | (k1, _) :: rest, key, h => by
    unfold hasKey at h
    unfold dget
    by_cases hk : k1 = key
    · rw [if_pos hk] at h
      exact absurd h (by decide)
    · rw [if_neg hk] at h
      rw [if_neg hk]
      exact dget_eq_null_of_not_hasKey rest key h

lemma findSite_eq_none (l : List TSite) (sid : Int)
    (h : ∀ s ∈ l, s.energy_site_id ≠ sid) :
    ∀ i : Nat, findSite l sid i = Option.none := by
  induction l with
  | nil => intro i; rfl
  | cons a rest ih =>
    intro i
    unfold findSite
    rw [if_neg (h a (List.mem_cons_self a rest))]
    exact ih (fun s hs => h s (List.mem_cons_of_mem a hs)) (i + 1)

lemma vitalsPartSerial_of_ne_two (din : String)
    (h : (splitDashDash din.data).length ≠ 2) :
    vitalsPartSerial din = (Option.none, Option.none) := by
  unfold vitalsPartSerial
  cases hs : splitDashDash din.data with
  | nil => rfl
  | cons p rest =>
    cases rest with
    | nil => rfl
    | cons q rest2 =>
      cases rest2 with
      | nil =>
        rw [hs] at h
        exact absurd rfl h
      | cons r rest3 => rfl

/-- Claim C1, counterexample: on the grid-status read path
(`get_api_system_status_grid_status`) a live-status document carrying
only `island_status = "on_grid"` maps to `"SystemIslandedActive"`, not
the grid-connected enumeration the claim requires — that path never
consults `island_status`. -/
theorem claim_C1_counterexample :
    get_api_system_status_grid_status
        (some [("island_status", .jstr "on_grid")]) =
      some [("grid_status", .jstr "SystemIslandedActive"),
            ("grid_services_active", .null)] ∧
    "SystemIslandedActive" ≠ "SystemGridConnected" := ⟨rfl, by decide⟩

/-- Claim C1, amended: the grid-status read path reports grid-connected
exactly on a live-status document whose `grid_status` equals `"Active"`,
so of the three claimed vectors `{island_status: off_grid, grid_status:
Active}` maps to grid-connected and `{island_status: off_grid}` alone to
islanded-active as claimed, while `{island_status: on_grid}` alone maps
to islanded-active; the claimed island-status-first precedence (on_grid
→ grid-connected; off_grid + Active → grid-connected; off_grid alone →
islanded-active) is what the system_island_state computation of the full
system-status translator implements. -/
theorem claim_C1_grid_status_mapping :
    get_api_system_status_grid_status
        (some [("island_status", .jstr "on_grid")]) =
      some [("grid_status", .jstr "SystemIslandedActive"),
            ("grid_services_active", .null)] ∧
    get_api_system_status_grid_status
        (some [("island_status", .jstr "off_grid"),
               ("grid_status", .jstr "Active")]) =
      some [("grid_status", .jstr "SystemGridConnected"),
            ("grid_services_active", .null)] ∧
    get_api_system_status_grid_status
        (some [("island_status", .jstr "off_grid")]) =
      some [("grid_status", .jstr "SystemIslandedActive"),
            ("grid_services_active", .null)] ∧
    get_api_system_status_island_state [("island_status", .jstr "on_grid")] =
      "SystemGridConnected" ∧
    get_api_system_status_island_state
        [("island_status", .jstr "off_grid"), ("grid_status", .jstr "Active")] =
      "SystemGridConnected" ∧
    get_api_system_status_island_state [("island_status", .jstr "off_grid")] =
      "SystemIslandedActive" :=
  ⟨rfl, rfl, rfl, rfl, rfl, rfl⟩

/-- Claim C2 (code bug): a payload carrying only
`backup_reserve_percent = False` is rejected by the truthiness-based
validation (`not payload.get(...)`) — `post_api_operation` raises
`PyPowerwallFleetAPIInvalidPayload` with no upstream call — even though
the function's own error message promises acceptance whenever the field
is present and its dedicated `== False` branch coerces the value to
integer 0; that coercion (one `set_battery_reserve(0)` call) is only
reachable when a truthy `real_mode` accompanies the field. -/
theorem claim_C2_false_reserve :
    post_api_operation (fun _ => .jstr "ok") (fun _ => .jstr "ok")
        [("backup_reserve_percent", .jbool false)] .null =
      ([], .error .invalidPayload) ∧
    (post_api_operation (fun _ => .jstr "ok") (fun _ => .jstr "ok")
        [("backup_reserve_percent", .jbool false),
         ("real_mode", .jstr "autonomous")] .null).1 =
      [UpCall.setBatteryReserve (.jint 0),
       UpCall.setOperatingMode (.jstr "autonomous")] := ⟨rfl, rfl⟩

/-- Claim C3: in the cache/lock table modelled from the spec, every
state reachable from N concurrent `get_or_fetch(key, f, force=false)`
callers within one TTL window has invoked the upstream fetch function at
most once: concurrent duplicate reads collapse to one upstream call. -/
theorem claim_C3_single_flight (n : Nat) (fresh : Bool) (s : SFState)
    (h : SFReach (SFInit n fresh) s) : s.fetches ≤ 1 :=
  (sfInv_reach (sfInv_init n fresh) h).1

/-- Claim C3 witness: two concurrent callers starting on a cold cache;
one acquires the lock and completes the fetch, reaching a state with
exactly one upstream call. -/
theorem claim_C3_single_flight_witness :
    ({ cacheFresh := true, lockHeld := false, fetches := 1, nStart := 1,
       nLock := 0, nDone := 1 } : SFState).fetches ≤ 1 :=
  claim_C3_single_flight 2 false _
    (Relation.ReflTransGen.head
      (SFStep.acquire (SFInit 2 false) (by decide) rfl rfl)
      (Relation.ReflTransGen.head
        (SFStep.complete _ (by decide)) Relation.ReflTransGen.refl))

/-- Claim C4: with a connected session, `poll` on any path outside the
read dispatch table returns the structured document
`{"ERROR": "Unknown API: <path>"}` rather than raising, and `post` on
any path outside the write dispatch table returns the same structured
error document (and invalidates no cache). -/
theorem claim_C4_unknown_api (api : String)
    (handlers : String → Except PwErr (Option JVal))
    (whandlers : String → Except PwErr JVal)
    (hp : api ∉ poll_api_map) (hq : api ∉ post_api_map) :
    poll (some ()) handlers api =
      .ok (some (.jobj [("ERROR", .jstr ("Unknown API: " ++ api))])) ∧
    post (some ()) whandlers api =
      .ok (.jobj [("ERROR", .jstr ("Unknown API: " ++ api))], false) := by
  constructor
  · simp [poll, hp]
  · simp [post, hq]

/-- Claim C4 witness: the unregistered path `/api/nonexistent`. -/
theorem claim_C4_unknown_api_witness :
    "/api/nonexistent" ∉ poll_api_map ∧
    "/api/nonexistent" ∉ post_api_map ∧
    poll (some ()) (fun _ => .ok Option.none) "/api/nonexistent" =
      .ok (some (.jobj [("ERROR", .jstr "Unknown API: /api/nonexistent")])) ∧
    post (some ()) (fun _ => .ok .null) "/api/nonexistent" =
      .ok (.jobj [("ERROR", .jstr "Unknown API: /api/nonexistent")], false) :=
  ⟨by decide, by decide,
    (claim_C4_unknown_api "/api/nonexistent" (fun _ => .ok Option.none)
      (fun _ => .ok .null) (by decide) (by decide)).1,
    (claim_C4_unknown_api "/api/nonexistent" (fun _ => .ok Option.none)
      (fun _ => .ok .null) (by decide) (by decide)).2⟩

/-- Claim C5: a `/api/operation` payload containing neither
`backup_reserve_percent` nor `real_mode` makes `post_api_operation`
raise `PyPowerwallFleetAPIInvalidPayload` — a distinct exception, not a
structured sentinel — with no upstream mutating call issued. -/
theorem claim_C5_invalid_payload (setRes setMode : JVal → JVal)
    (payload : Dict) (din : JVal)
    (h1 : hasKey payload "backup_reserve_percent" = false)
    (h2 : hasKey payload "real_mode" = false) :
    post_api_operation setRes setMode payload din =
      ([], .error .invalidPayload) := by
  have g1 := dget_eq_null_of_not_hasKey payload "backup_reserve_percent" h1
  have g2 := dget_eq_null_of_not_hasKey payload "real_mode" h2
  simp [post_api_operation, g1, g2, truthy]

/-- Claim C5 witness: the empty payload `{}`. -/
theorem claim_C5_invalid_payload_witness :
    hasKey [] "backup_reserve_percent" = false ∧
    hasKey [] "real_mode" = false ∧
    post_api_operation (fun _ => .jstr "ok") (fun _ => .jstr "ok") [] .null =
      ([], .error .invalidPayload) :=
  ⟨rfl, rfl,
    claim_C5_invalid_payload (fun _ => .jstr "ok") (fun _ => .jstr "ok")
      [] .null rfl rfl⟩

/-- Claim C6: `change_site` with an identifier matching no site in the
fetched list returns `False` and leaves the selection state — `siteid`,
`siteindex` and `site` — exactly as it was; the session is not torn
down (nothing besides the returned selection is touched). -/
theorem claim_C6_change_site_absent (st : SiteSel) (l : List TSite)
    (sid : Int) (h : ∀ s ∈ l, s.energy_site_id ≠ sid) :
    change_site st (some l) (some sid) = (false, st) := by
  by_cases hl : l.length = 0
  · simp [change_site, hl]
  · simp [change_site, hl, findSite_eq_none l sid h 0]

/-- Claim C6 witness: requesting site 2 when only site 1 exists. -/
theorem claim_C6_change_site_absent_witness :
    change_site
        { siteid := some 1, siteindex := 0,
          site := some { energy_site_id := 1, site_name := "home" } }
        (some [{ energy_site_id := 1, site_name := "home" }]) (some 2) =
      (false,
        { siteid := some 1, siteindex := 0,
          site := some { energy_site_id := 1, site_name := "home" } }) :=
  claim_C6_change_site_absent _ _ 2 (by decide)

/-- Claim C7: the state-of-charge translator always returns a document
(never `None`); its `percentage` field equals the upstream battery
percentage when one is available (an upstream `0` comes back as the
numerically equal integer `0`) and defaults to integer `0` when the
upstream value is unavailable. -/
theorem claim_C7_soe (bl : JVal) :
    get_api_system_status_soe bl ≠ Option.none ∧
    (∀ q : ℚ, bl = .jnum q →
      ∃ d : Dict, get_api_system_status_soe bl = some d ∧
        pyEq (dget d "percentage") (.jnum q) = true) ∧
    (bl = .null →
      ∃ d : Dict, get_api_system_status_soe bl = some d ∧
        dget d "percentage" = .jint 0) := by
  refine ⟨by simp [get_api_system_status_soe], ?_, ?_⟩
  · rintro q rfl
    refine ⟨_, rfl, ?_⟩
    by_cases hq : q = 0
    · subst hq
      decide
    · simp [dget, pyOr, truthy, hq, pyEq]
  · rintro rfl
    exact ⟨_, rfl, rfl⟩

/-- Claim C7 witness: an upstream battery level of 55 percent and an
unavailable one. -/
theorem claim_C7_soe_witness :
    get_api_system_status_soe (.jnum 55) ≠ Option.none ∧
    (∃ d : Dict, get_api_system_status_soe (.jnum 55) = some d ∧
      pyEq (dget d "percentage") (.jnum 55) = true) ∧
    (∃ d : Dict, get_api_system_status_soe .null = some d ∧
      dget d "percentage" = .jint 0) :=
  ⟨(claim_C7_soe (.jnum 55)).1, (claim_C7_soe (.jnum 55)).2.1 55 rfl,
    (claim_C7_soe .null).2.2 rfl⟩

/-- Claim C8: in the `/vitals` translator, a device identifier whose
split on `"--"` yields exactly two parts gives a record with the first
part as `partNumber` and the second as `serialNumber`; any other number
of parts gives null for both; and the synthesized device record of
`get_vitals` carries exactly these values. -/
theorem claim_C8_vitals_split (din : String) :
    (∀ p q : List Char, splitDashDash din.data = [p, q] →
      vitalsPartSerial din = (some (String.mk p), some (String.mk q))) ∧
    ((splitDashDash din.data).length ≠ 2 →
      vitalsPartSerial din = (Option.none, Option.none)) ∧
    (∀ power : Dict, ∃ body : List (String × JVal),
      get_vitals 0 (some [("id", .jstr din)]) (some power) =
        .ok (some (.jobj
          [("STSTSM--" ++ pyStrOfOpt (vitalsPartSerial din).1 ++ "--" ++
              pyStrOfOpt (vitalsPartSerial din).2, .jobj body)])) ∧
      dget body "partNumber" = optStrJVal (vitalsPartSerial din).1 ∧
      dget body "serialNumber" = optStrJVal (vitalsPartSerial din).2) := by
  refine ⟨?_, vitalsPartSerial_of_ne_two din, ?_⟩
  · intro p q h
    unfold vitalsPartSerial
    rw [h]
  · intro power
    exact ⟨_, rfl, rfl, rfl⟩

/-- Claim C8 witness: the two identifiers from the spec. -/
theorem claim_C8_vitals_split_witness :
    vitalsPartSerial "1232100-00-E--TG12345678904G" =
      (some "1232100-00-E", some "TG12345678904G") ∧
    vitalsPartSerial "no-separator-here" = (Option.none, Option.none) :=
  ⟨(claim_C8_vitals_split "1232100-00-E--TG12345678904G").1
      "1232100-00-E".data "TG12345678904G".data (by decide),
   (claim_C8_vitals_split "no-separator-here").2.1 (by decide)⟩

/-- Claim C9 (code bug): the `/vitals` translator does not satisfy the
never-raise contract: on a non-`None` site-info document lacking `"id"`
it evaluates `None.split("--")` and raises `AttributeError` instead of
defaulting the field or returning `None` (with a string identifier
present it does return a document, and with a missing upstream document
it returns `None`). -/
theorem claim_C9_vitals_attribute_error :
    get_vitals 0 (some []) (some []) = .error .attributeError ∧
    (∃ v, get_vitals 0
        (some [("id", .jstr "1232100-00-E--TG12345678904G")]) (some []) =
      .ok (some v)) ∧
    get_vitals 0 Option.none (some []) = .ok Option.none :=
  ⟨rfl, ⟨_, rfl⟩, rfl⟩

/-- Claim C10: with the `tesla` attribute `None`, both `poll` and `post`
raise `PyPowerwallFleetAPITeslaNotConnected` before any dispatch-table
lookup, for every path — registered or not — so in the unconnected
state even unknown paths raise instead of returning the structured
error document. -/
theorem claim_C10_not_connected (api : String)
    (handlers : String → Except PwErr (Option JVal))
    (whandlers : String → Except PwErr JVal) :
    poll Option.none handlers api = .error .teslaNotConnected ∧
    post Option.none whandlers api = .error .teslaNotConnected :=
  ⟨rfl, rfl⟩

end PypowerwallFleet
